import Mathlib

/-!
Shallow embedding of `checker/checker.py` (email-spoofer): the SPF and DMARC
strength evaluators and the spoofability orchestrator.

Modelling conventions:
- DNS lookups (`spflib.SpfRecord.from_domain`, `dmarclib.DmarcRecord.from_domain`)
  are external collaborators; they are modelled as environment functions
  `String → Option SpfRecord` / `String → Option DmarcRecord`, where `none`
  models `from_domain` returning Python `None`.
- Python attribute truthiness (`if x:` on an optional string) is `pyTruthy`.
- `is_spf_record_strong` recurses on redirect/include target domains with no
  depth guard in the source, so the embedding carries an explicit fuel
  parameter; a result of `none` models non-termination (Python
  `RecursionError`), `some b` models the function returning the boolean `b`.
- `is_dmarc_record_strong` can raise an uncaught `AttributeError` (when
  `from_domain` returns `None`, line 211 evaluates `dmarc.get_org_domain()`),
  so it returns `Except String Bool`, `Except.error` modelling the raise.
- The library-internal helpers `SpfRecord._is_redirect_mechanism_strong` and
  `SpfRecord._are_include_mechanisms_strong` live in `emailprotectionslib`
  (an external collaborator); their answers are carried as boolean fields of
  the fetched record.
- The narration channels (`output_good`, `output_bad`, ...) are side-effect
  only and never influence control flow; they are dropped, except that the
  orchestrator's short-circuit structure (which decides whether the DMARC
  evaluator runs at all, hence whether its diagnostics appear) is made
  observable through `evaluate_trace`.
-/

/-- Truthiness of a Python optional-string attribute: `None` and `""` are
falsy, every other string is truthy. -/
def pyTruthy : Option String → Bool
  | some s => !(s == "")
  | none => false

/-- Parsed SPF record, as the evaluator observes it.  `record` is the
truthiness of `spf_record.record`; `all_string`, `redirect_domain` and
`include_domains` mirror the library accessors; the last two fields are the
answers of the library-internal mechanism-level strength helpers. -/
structure SpfRecord where
  record : Bool
  all_string : Option String
  redirect_domain : Option String
  include_domains : List String
  redirect_mechanism_strong : Bool
  include_mechanisms_strong : Bool
deriving DecidableEq

/-- Source `is_spf_redirect_record_strong` (lines 40-50): returns the
library-internal `_is_redirect_mechanism_strong()` answer. -/
def is_spf_redirect_record_strong (spf_record : SpfRecord) : Bool :=
  spf_record.redirect_mechanism_strong

/-- Source `are_spf_include_mechanisms_strong` (lines 53-62): returns the
library-internal `_are_include_mechanisms_strong()` answer. -/
def are_spf_include_mechanisms_strong (spf_record : SpfRecord) : Bool :=
  spf_record.include_mechanisms_strong

/-- Source `check_spf_include_redirect` (lines 65-74): the redirect mechanism
check when a redirect domain is present, then the include mechanism check if
that did not already succeed. -/
def check_spf_include_redirect (spf_record : SpfRecord) : Bool :=
  let other_records_strong :=
    if pyTruthy spf_record.redirect_domain then
      is_spf_redirect_record_strong spf_record
    else false
  if !other_records_strong then are_spf_include_mechanisms_strong spf_record
  else other_records_strong

/-- Source `check_spf_all_string` (lines 77-97): strong iff the `all` string
is present and equals `~all` or `-all`; otherwise fall through to
`check_spf_include_redirect`. -/
def check_spf_all_string (spf_record : SpfRecord) : Bool :=
  let strong_spf_all_string :=
    if pyTruthy spf_record.all_string then
      if spf_record.all_string == some "~all" || spf_record.all_string == some "-all" then
        true
      else false
    else false
  if !strong_spf_all_string then check_spf_include_redirect spf_record
  else strong_spf_all_string

/-- Source `check_spf_redirect_mechanisms` (lines 17-24).  The source calls
the global recursive `is_spf_record_strong` on the redirect domain; the
embedding receives that recursive evaluator as `rec`. -/
def check_spf_redirect_mechanisms (rec : String → Option Bool)
    (spf_record : SpfRecord) : Option Bool :=
  match spf_record.redirect_domain with
  | some redirect_domain =>
      if redirect_domain == "" then some false else rec redirect_domain
  | none => some false

/-- Source `check_spf_include_mechanisms` (lines 27-37): walk the include
domains in order, recursing into each; return `True` at the first strong one.
`rec` is the global recursive `is_spf_record_strong`. -/
def check_spf_include_mechanisms (rec : String → Option Bool) :
    List String → Option Bool
  | [] => some false
  | include_domain :: rest =>
    match rec include_domain with
    | none => none
    | some strong_all_string =>
      if strong_all_string then some true
      else check_spf_include_mechanisms rec rest

/-- Source `is_spf_record_strong` (lines 100-120).  Fuel-indexed: `none`
models a non-terminating redirect/include recursion (the source has no depth
guard).  When the all-string check fails, the source evaluates BOTH the
redirect recursion and the include recursion, then ORs them. -/
def is_spf_record_strong (env : String → Option SpfRecord) :
    Nat → String → Option Bool
  | 0, _ => none
  | fuel + 1, domain =>
    match env domain with
    | some spf_record =>
      if spf_record.record then
        if check_spf_all_string spf_record then some true
        else
          match check_spf_redirect_mechanisms (is_spf_record_strong env fuel) spf_record,
                check_spf_include_mechanisms (is_spf_record_strong env fuel)
                  spf_record.include_domains with
          | some redirect_strength, some include_strength =>
              some (redirect_strength || include_strength)
          | _, _ => none
      else some false
    | none => some false

/-- Organizational DMARC record, as `check_dmarc_org_policy` observes it:
truthiness of `.record`, the `sp=` tag, and the `p=` tag. -/
structure OrgDmarcRecord where
  record : Bool
  subdomain_policy : Option String
  policy : Option String
deriving DecidableEq

/-- Outcome of the library call `base_record.get_org_record()`: a value
(possibly Python `None`), a raised `dmarclib.OrgDomainException`, or any
other raised exception. -/
inductive OrgResult where
  | ok : Option OrgDmarcRecord → OrgResult
  | orgDomainException : OrgResult
  | otherException : OrgResult
deriving DecidableEq

/-- Parsed DMARC record for the queried domain.  `record` is the truthiness
of `dmarc.record`; `org_domain` is the answer of `dmarc.get_org_domain()`
(the collaborator contract returns a string or absent); `org` is the outcome
of `dmarc.get_org_record()`. -/
structure DmarcRecord where
  record : Bool
  policy : Option String
  pct : Option String
  rua : Option String
  ruf : Option String
  org_domain : Option String
  org : OrgResult
deriving DecidableEq

/-- Source `check_dmarc_policy` (lines 153-165), abstracted over the `policy`
attribute of the record it receives (it reads nothing else): strong iff the
policy is present and equals `reject` or `quarantine`. -/
def check_dmarc_policy (policy : Option String) : Bool :=
  if pyTruthy policy then
    if policy == some "reject" || policy == some "quarantine" then true
    else false
  else false

/-- Source `check_dmarc_org_policy` (lines 168-198): fetch the organizational
record inside a `try`; an explicit truthy `sp=` decides alone (`none` weak,
`quarantine`/`reject` strong, anything else leaves the initial `False`),
otherwise fall back to `check_dmarc_policy` on the organizational `p=`; a
missing record, an `OrgDomainException`, or any other exception all leave the
initial `False`. -/
def check_dmarc_org_policy (base_record : DmarcRecord) : Bool :=
  match base_record.org with
  | OrgResult.ok (some org_record) =>
    if org_record.record then
      if pyTruthy org_record.subdomain_policy then
        if org_record.subdomain_policy == some "none" then false
        else if org_record.subdomain_policy == some "quarantine" ||
                org_record.subdomain_policy == some "reject" then true
        else false
      else check_dmarc_policy org_record.policy
    else false
  | OrgResult.ok none => false
  | OrgResult.orgDomainException => false
  | OrgResult.otherException => false

/-- Source `is_dmarc_record_strong` (lines 201-219).  When `from_domain`
returns `None`, the guard `if dmarc and dmarc.record:` is false and the
`elif dmarc.get_org_domain():` line dereferences `None`, raising an
`AttributeError` that nothing in the program catches; this is the
`Except.error` branch. -/
def is_dmarc_record_strong (env : String → Option DmarcRecord)
    (domain : String) : Except String Bool :=
  match env domain with
  | some dmarc =>
    if dmarc.record then Except.ok (check_dmarc_policy dmarc.policy)
    else if pyTruthy dmarc.org_domain then
      Except.ok (check_dmarc_org_policy dmarc)
    else Except.ok false
  | none => Except.error "AttributeError"

/-- The two strength evaluators the orchestrator can call. -/
inductive EvaluatorCall where
  | spfCall : EvaluatorCall
  | dmarcCall : EvaluatorCall
deriving DecidableEq

/-- Source `__main__` (lines 235-238), instrumented with the list of
evaluator invocations.  Python evaluates
`is_spf_record_strong(domain) and is_dmarc_record_strong(domain)` lazily:
the right operand runs only if the left is truthy.  The verdict component is
the spoofability boolean (`output_good` branch = spoofable = `true`);
`none` models a non-terminating SPF evaluation. -/
def evaluate_trace (spfEnv : String → Option SpfRecord)
    (dmarcEnv : String → Option DmarcRecord) (fuel : Nat) (domain : String) :
    Option (List EvaluatorCall × Except String Bool) :=
  match is_spf_record_strong spfEnv fuel domain with
  | none => none
  | some spf_strong =>
    if spf_strong then
      match is_dmarc_record_strong dmarcEnv domain with
      | Except.ok dmarc_strong =>
          some ([EvaluatorCall.spfCall, EvaluatorCall.dmarcCall],
                Except.ok (!dmarc_strong))
      | Except.error e =>
          some ([EvaluatorCall.spfCall, EvaluatorCall.dmarcCall],
                Except.error e)
    else some ([EvaluatorCall.spfCall], Except.ok (!spf_strong))

/-- The orchestrator's verdict: `some (Except.ok b)` means the program
printed a verdict with spoofable = `b`; `some (Except.error _)` means it
raised; `none` means the SPF recursion did not terminate. -/
def evaluate (spfEnv : String → Option SpfRecord)
    (dmarcEnv : String → Option DmarcRecord) (fuel : Nat) (domain : String) :
    Option (Except String Bool) :=
  (evaluate_trace spfEnv dmarcEnv fuel domain).map Prod.snd

/-! ### Shared helper lemmas -/

/-- If the include walk answers `True`, some include domain recursively
evaluated strong. -/
lemma check_spf_include_mechanisms_some_true (rec : String → Option Bool) :
    ∀ ds : List String, check_spf_include_mechanisms rec ds = some true →
      ∃ d ∈ ds, rec d = some true := by
  intro ds
  induction ds with
  | nil => intro h; simp [check_spf_include_mechanisms] at h
  | cons d rest ih =>
    intro h
    rw [check_spf_include_mechanisms] at h
    cases hd : rec d with
    | none => rw [hd] at h; simp at h
    | some b =>
      rw [hd] at h
      cases b with
      | true => exact ⟨d, by simp, hd⟩
      | false =>
        simp only [Bool.false_eq_true, if_false] at h
        obtain ⟨d', hd', hrec⟩ := ih h
        exact ⟨d', by simp [hd'], hrec⟩

/-! ### Concrete environments used by witnesses and counterexamples -/

/-- Record with a strict `-all` and no delegation. -/
def spfStrictAll : SpfRecord := ⟨true, some "-all", none, [], false, false⟩

/-- Record with a neutral `?all` and no delegation. -/
def spfNeutralNoDelegation : SpfRecord := ⟨true, some "?all", none, [], false, false⟩

/-- Record with a `+all` qualifier that redirects to domain `b`. -/
def spfRedirectToB : SpfRecord := ⟨true, some "+all", some "b", [], false, false⟩

/-- Environment for the redirect-transitivity witness: `a` redirects to `b`,
`b` carries a strict `-all`. -/
def spfEnvRedirect : String → Option SpfRecord := fun d =>
  if d = "a" then some spfRedirectToB
  else if d = "b" then some spfStrictAll
  else none

/-- Environment with no SPF records at all. -/
def spfEnvEmpty : String → Option SpfRecord := fun _ => none

/-- Environment with no DMARC record objects at all (`from_domain` returns
`None` everywhere). -/
def dmarcEnvEmpty : String → Option DmarcRecord := fun _ => none

/-! ### C9 — absent SPF record -/

/-- C9: for every domain for which the SPF lookup returns absent (no SPF
record), `is_spf_record_strong` returns `false`. -/
theorem spf_absent_record_not_strong (env : String → Option SpfRecord)
    (fuel : Nat) (domain : String) (henv : env domain = none) :
    is_spf_record_strong env (fuel + 1) domain = some false := by
  simp [is_spf_record_strong, henv]

/-- Witness for C9 on a concrete empty environment. -/
theorem spf_absent_record_not_strong_witness :
    is_spf_record_strong spfEnvEmpty 1 "example.com" = some false :=
  spf_absent_record_not_strong spfEnvEmpty 0 "example.com" rfl

/-! ### C4 — strict-all is sufficient, weak qualifier confers no strength -/

/-- C4: a record whose `all` string is `~all` or `-all` is strong with no
delegation needed; with a `+all`/`?all`/absent qualifier and no delegation
(no redirect, no includes, mechanism-level helpers negative) the record is
weak. -/
theorem spf_all_qualifier_decides (env : String → Option SpfRecord)
    (fuel : Nat) (domain : String) (r : SpfRecord)
    (henv : env domain = some r) (hrec : r.record = true) :
    ((r.all_string = some "~all" ∨ r.all_string = some "-all") →
      is_spf_record_strong env (fuel + 1) domain = some true) ∧
    ((r.all_string = none ∨ r.all_string = some "+all" ∨ r.all_string = some "?all") →
      r.redirect_domain = none → r.include_domains = [] →
      r.redirect_mechanism_strong = false → r.include_mechanisms_strong = false →
      is_spf_record_strong env (fuel + 1) domain = some false) := by
  constructor
  · intro hall
    rcases hall with h | h <;>
      simp [is_spf_record_strong, henv, hrec, check_spf_all_string, pyTruthy, h]
  · intro hall hredir hinc hrm him
    rcases hall with h | h | h <;>
      simp [is_spf_record_strong, henv, hrec, check_spf_all_string, pyTruthy,
        check_spf_include_redirect, is_spf_redirect_record_strong,
        are_spf_include_mechanisms_strong, check_spf_redirect_mechanisms,
        check_spf_include_mechanisms, h, hredir, hinc, hrm, him]

/-- Witness for C4: `-all` record strong, the `?all` twin weak. -/
theorem spf_all_qualifier_decides_witness :
    is_spf_record_strong spfEnvRedirect 1 "b" = some true ∧
    is_spf_record_strong (fun d => if d = "w" then some spfNeutralNoDelegation else none)
      1 "w" = some false :=
  ⟨(spf_all_qualifier_decides spfEnvRedirect 0 "b" spfStrictAll rfl rfl).1
      (Or.inr rfl),
   (spf_all_qualifier_decides
      (fun d => if d = "w" then some spfNeutralNoDelegation else none)
      0 "w" spfNeutralNoDelegation rfl rfl).2
      (Or.inr (Or.inr rfl)) rfl rfl rfl rfl⟩

/-! ### C8 — redirect strength is transitive -/

/-- C8: if the record of `domain` redirects to `b` and `b` evaluates
SPF-strong, then `domain` evaluates SPF-strong, whatever its own `all`
qualifier — provided the include walk of `domain` also terminates (the
source evaluates it unconditionally after the redirect recursion). -/
theorem spf_redirect_strength_transitive (env : String → Option SpfRecord)
    (fuel : Nat) (domain b : String) (r : SpfRecord) (iv : Bool)
    (henv : env domain = some r) (hrec : r.record = true)
    (hredir : r.redirect_domain = some b) (hb : (b == "") = false)
    (hstrong : is_spf_record_strong env fuel b = some true)
    (hinc : check_spf_include_mechanisms (is_spf_record_strong env fuel)
      r.include_domains = some iv) :
    is_spf_record_strong env (fuel + 1) domain = some true := by
  rw [is_spf_record_strong, henv]
  simp only [hrec, if_true]
  by_cases hall : check_spf_all_string r
  · simp [hall]
  · simp [hall, check_spf_redirect_mechanisms, hredir, hb, hstrong, hinc]

/-- Witness for C8: `a` (+all) redirects to `b` (-all); `a` is strong. -/
theorem spf_redirect_strength_transitive_witness :
    is_spf_record_strong spfEnvRedirect 2 "a" = some true :=
  spf_redirect_strength_transitive spfEnvRedirect 1 "a" "b" spfRedirectToB
    false rfl rfl rfl rfl rfl rfl

/-! ### C10 — absent DMARC object is dereferenced -/

/-- C10: when the DMARC lookup returns no record object at all (`None`),
`is_dmarc_record_strong` dereferences it (`dmarc.get_org_domain()`) and
raises instead of returning not strong. -/
theorem dmarc_none_record_raises (env : String → Option DmarcRecord)
    (domain : String) (henv : env domain = none) :
    is_dmarc_record_strong env domain = Except.error "AttributeError" := by
  simp [is_dmarc_record_strong, henv]

/-- Witness for C10 on a concrete empty environment. -/
theorem dmarc_none_record_raises_witness :
    is_dmarc_record_strong dmarcEnvEmpty "example.com" =
      Except.error "AttributeError" :=
  dmarc_none_record_raises dmarcEnvEmpty "example.com" rfl

/-! ### C3 — redirect does not replace the include walk -/

/-- Record with a weak `?all`, a redirect to `r`, and one include `i`. -/
def spfWeakRedirInclude : SpfRecord := ⟨true, some "?all", some "r", ["i"], false, false⟩

/-- Environment where `a` redirects to the record-less `r` but includes the
strict `i`. -/
def spfEnvRedirectWeakIncludeStrong : String → Option SpfRecord := fun d =>
  if d = "a" then some spfWeakRedirInclude
  else if d = "i" then some spfStrictAll
  else none

/-- Counterexample to C3: `a` has `redirectDomain = r` set, `r` evaluates
SPF-weak, yet `a` evaluates SPF-strong — because the source also walks the
include domains (here the strict `i`) and ORs the two answers, instead of
letting the redirect result alone decide. -/
theorem spf_redirect_replaces_includes_counterexample :
    spfEnvRedirectWeakIncludeStrong "a" = some spfWeakRedirInclude ∧
    spfWeakRedirInclude.redirect_domain = some "r" ∧
    is_spf_record_strong spfEnvRedirectWeakIncludeStrong 3 "r" = some false ∧
    is_spf_record_strong spfEnvRedirectWeakIncludeStrong 3 "a" = some true :=
  ⟨rfl, rfl, rfl, rfl⟩

/-- C3 amended: when the all-string check fails, the redirect recursion AND
the include walk are both evaluated and the result is their disjunction; a
strong include walk is witnessed by some include domain evaluating strong. -/
theorem spf_weak_all_delegation_disjunction (env : String → Option SpfRecord)
    (fuel : Nat) (domain : String) (r : SpfRecord) (rv iv : Bool)
    (henv : env domain = some r) (hrec : r.record = true)
    (hall : check_spf_all_string r = false)
    (hredir : check_spf_redirect_mechanisms (is_spf_record_strong env fuel) r = some rv)
    (hinc : check_spf_include_mechanisms (is_spf_record_strong env fuel)
      r.include_domains = some iv) :
    is_spf_record_strong env (fuel + 1) domain = some (rv || iv) ∧
    (iv = true → ∃ d ∈ r.include_domains,
      is_spf_record_strong env fuel d = some true) := by
  constructor
  · rw [is_spf_record_strong, henv]
    simp [hrec, hall, hredir, hinc]
  · intro hiv
    subst hiv
    exact check_spf_include_mechanisms_some_true _ _ hinc

/-- Witness for the amended C3 at the counterexample environment: result is
`false || true` and the strong include is exhibited. -/
theorem spf_weak_all_delegation_disjunction_witness :
    is_spf_record_strong spfEnvRedirectWeakIncludeStrong 3 "a" =
      some (false || true) :=
  (spf_weak_all_delegation_disjunction spfEnvRedirectWeakIncludeStrong 2 "a"
    spfWeakRedirInclude false true rfl rfl rfl rfl rfl).1

/-- The policy check answers exactly "policy is `quarantine` or `reject`". -/
lemma check_dmarc_policy_eq (p : Option String) :
    check_dmarc_policy p = (p == some "quarantine" || p == some "reject") := by
  cases p with
  | none => rfl
  | some s =>
    by_cases hs : s = ""
    · subst hs; rfl
    · have hb : (s == "") = false := by simp [hs]
      simp only [check_dmarc_policy, pyTruthy, hb, Bool.not_false, if_true]
      cases hq : (some s == some "reject" || some s == some "quarantine") with
      | true => rw [Bool.or_comm] at hq; simpa using hq.symm
      | false => rw [Bool.or_comm] at hq; simpa using hq.symm

/-! ### C7 — own DMARC record: policy alone decides -/

/-- C7: a domain with its own DMARC record is strong iff its `p=` policy is
`quarantine` or `reject`; the right-hand side mentions only the `policy`
field, so `pct`, `rua` and `ruf` never affect the verdict. -/
theorem dmarc_own_record_policy_decides (env : String → Option DmarcRecord)
    (domain : String) (d : DmarcRecord)
    (henv : env domain = some d) (hrec : d.record = true) :
    is_dmarc_record_strong env domain =
      Except.ok (d.policy == some "quarantine" || d.policy == some "reject") := by
  rw [is_dmarc_record_strong, henv]
  simp [hrec, check_dmarc_policy_eq]

/-- DMARC record for the C7 witness: own record with `p=reject`. -/
def dmarcRejectRecord : DmarcRecord :=
  ⟨true, some "reject", some "100", none, none, some "example.com", OrgResult.ok none⟩

/-- Environment mapping `strong.example` to the `p=reject` record. -/
def dmarcEnvReject : String → Option DmarcRecord := fun d =>
  if d = "strong.example" then some dmarcRejectRecord else none

/-- Witness for C7: the `p=reject` record is strong. -/
theorem dmarc_own_record_policy_decides_witness :
    is_dmarc_record_strong dmarcEnvReject "strong.example" =
      Except.ok (some "reject" == some "quarantine" ||
                 some "reject" == some "reject") :=
  dmarc_own_record_policy_decides dmarcEnvReject "strong.example"
    dmarcRejectRecord rfl rfl

/-! ### C5 — organizational fallback: subdomain policy wins -/

/-- C5: for a domain with no own DMARC record but a resolvable
organizational record, an explicitly set `sp=` decides alone (`none` weak,
`quarantine`/`reject` strong), and an unset `sp=` falls back to the
organizational record's own `p=` under `check_dmarc_policy`. -/
theorem dmarc_org_fallback_subdomain_policy_decides
    (env : String → Option DmarcRecord) (domain : String)
    (d : DmarcRecord) (org : OrgDmarcRecord)
    (henv : env domain = some d) (hrec : d.record = false)
    (horgdom : pyTruthy d.org_domain = true)
    (horg : d.org = OrgResult.ok (some org)) (horgrec : org.record = true) :
    (org.subdomain_policy = some "none" →
      is_dmarc_record_strong env domain = Except.ok false) ∧
    ((org.subdomain_policy = some "quarantine" ∨
      org.subdomain_policy = some "reject") →
      is_dmarc_record_strong env domain = Except.ok true) ∧
    (org.subdomain_policy = none →
      is_dmarc_record_strong env domain =
        Except.ok (check_dmarc_policy org.policy)) := by
  have hbase : is_dmarc_record_strong env domain =
      Except.ok (check_dmarc_org_policy d) := by
    rw [is_dmarc_record_strong, henv]
    simp [hrec, horgdom]
  refine ⟨fun hsp => ?_, fun hsp => ?_, fun hsp => ?_⟩
  · rw [hbase]
    simp [check_dmarc_org_policy, horg, horgrec, pyTruthy, hsp]
  · rcases hsp with hsp | hsp <;> rw [hbase] <;>
      simp [check_dmarc_org_policy, horg, horgrec, pyTruthy, hsp]
  · rw [hbase]
    simp [check_dmarc_org_policy, horg, horgrec, pyTruthy, hsp]

/-- Organizational record with `p=none` but explicit `sp=quarantine`. -/
def dmarcOrgQuarantine : OrgDmarcRecord := ⟨true, some "quarantine", some "none"⟩

/-- Subdomain record: no own record text, organizational domain resolvable,
organizational record `dmarcOrgQuarantine`. -/
def dmarcSubRecord : DmarcRecord :=
  ⟨false, none, none, none, none, some "example.com",
   OrgResult.ok (some dmarcOrgQuarantine)⟩

/-- Environment mapping `sub.example.com` to the record-less subdomain. -/
def dmarcEnvSub : String → Option DmarcRecord := fun d =>
  if d = "sub.example.com" then some dmarcSubRecord else none

/-- Witness for C5: explicit `sp=quarantine` overrides organizational
`p=none` and yields strong. -/
theorem dmarc_org_fallback_subdomain_policy_decides_witness :
    is_dmarc_record_strong dmarcEnvSub "sub.example.com" = Except.ok true :=
  (dmarc_org_fallback_subdomain_policy_decides dmarcEnvSub "sub.example.com"
    dmarcSubRecord dmarcOrgQuarantine rfl rfl rfl rfl rfl).2.1 (Or.inl rfl)

/-! ### C2 — failed organizational resolution never raises -/

/-- C2: for a domain whose DMARC object exists but has no own record text,
if the organizational chain fails (no organizational domain, lookup returns
`None` or a record-less object, or the lookup raises `OrgDomainException` or
any other exception), `is_dmarc_record_strong` returns `false` without
raising, and — provided the SPF evaluation terminates — `evaluate` raises no
exception and reports spoofable = `true`. -/
theorem evaluate_org_resolution_failure_not_strong
    (spfEnv : String → Option SpfRecord) (env : String → Option DmarcRecord)
    (fuel : Nat) (domain : String) (d : DmarcRecord) (s : Bool)
    (henv : env domain = some d) (hrec : d.record = false)
    (hfail : pyTruthy d.org_domain = false ∨ d.org = OrgResult.ok none ∨
      d.org = OrgResult.orgDomainException ∨ d.org = OrgResult.otherException ∨
      ∃ o, d.org = OrgResult.ok (some o) ∧ o.record = false)
    (hspf : is_spf_record_strong spfEnv fuel domain = some s) :
    is_dmarc_record_strong env domain = Except.ok false ∧
    evaluate spfEnv env fuel domain = some (Except.ok true) := by
  have hdm : is_dmarc_record_strong env domain = Except.ok false := by
    rcases hfail with h | h | h | h | ⟨o, h, ho⟩
    · rw [is_dmarc_record_strong, henv]
      simp [hrec, h]
    · rw [is_dmarc_record_strong, henv]
      by_cases hod : pyTruthy d.org_domain <;>
        simp [hrec, hod, check_dmarc_org_policy, h]
    · rw [is_dmarc_record_strong, henv]
      by_cases hod : pyTruthy d.org_domain <;>
        simp [hrec, hod, check_dmarc_org_policy, h]
    · rw [is_dmarc_record_strong, henv]
      by_cases hod : pyTruthy d.org_domain <;>
        simp [hrec, hod, check_dmarc_org_policy, h]
    · rw [is_dmarc_record_strong, henv]
      by_cases hod : pyTruthy d.org_domain <;>
        simp [hrec, hod, check_dmarc_org_policy, h, ho]
  refine ⟨hdm, ?_⟩
  rw [evaluate, evaluate_trace, hspf]
  cases s with
  | false => simp
  | true => simp [hdm]

/-- DMARC record whose organizational lookup raises an unexpected error. -/
def dmarcOrgErrorRecord : DmarcRecord :=
  ⟨false, none, none, none, none, some "example.com", OrgResult.otherException⟩

/-- Environment mapping `broken.example.com` to that record. -/
def dmarcEnvOrgError : String → Option DmarcRecord := fun d =>
  if d = "broken.example.com" then some dmarcOrgErrorRecord else none

/-- Witness for C2: organizational lookup raising an unexpected exception is
caught, the evaluator answers not strong and the verdict is spoofable. -/
theorem evaluate_org_resolution_failure_not_strong_witness :
    is_dmarc_record_strong dmarcEnvOrgError "broken.example.com" =
      Except.ok false ∧
    evaluate spfEnvEmpty dmarcEnvOrgError 1 "broken.example.com" =
      some (Except.ok true) :=
  evaluate_org_resolution_failure_not_strong spfEnvEmpty dmarcEnvOrgError 1
    "broken.example.com" dmarcOrgErrorRecord false rfl rfl
    (Or.inr (Or.inr (Or.inr (Or.inl rfl)))) rfl

/-! ### C6 — the verdict is the conjunction of the two strengths -/

/-- C6: whenever the SPF evaluation terminates with `s` and the DMARC
evaluation returns `dm` without raising, the orchestrator reports
spoofable = `!(s && dm)`: not spoofable exactly when both verdicts are
strong. -/
theorem evaluate_spoofable_iff_not_both_strong
    (spfEnv : String → Option SpfRecord) (dmarcEnv : String → Option DmarcRecord)
    (fuel : Nat) (domain : String) (s dm : Bool)
    (hspf : is_spf_record_strong spfEnv fuel domain = some s)
    (hdm : is_dmarc_record_strong dmarcEnv domain = Except.ok dm) :
    evaluate spfEnv dmarcEnv fuel domain = some (Except.ok (!(s && dm))) := by
  rw [evaluate, evaluate_trace, hspf]
  cases s with
  | false => simp
  | true => simp [hdm]

/-- Witness for C6: SPF weak and DMARC strong gives spoofable =
`!(false && true)` = `true`. -/
theorem evaluate_spoofable_iff_not_both_strong_witness :
    evaluate spfEnvEmpty dmarcEnvSub 1 "sub.example.com" =
      some (Except.ok (!(false && true))) :=
  evaluate_spoofable_iff_not_both_strong spfEnvEmpty dmarcEnvSub 1
    "sub.example.com" false true rfl rfl

/-! ### C1 — the orchestrator short-circuits -/

/-- Counterexample to C1: a domain whose SPF evaluation returns `false` and
whose orchestrator trace contains only the SPF call — `is_dmarc_record_strong`
is never invoked, so its diagnostics are not produced. -/
theorem orchestrator_short_circuit_counterexample :
    is_spf_record_strong spfEnvEmpty 1 "example.com" = some false ∧
    evaluate_trace spfEnvEmpty dmarcEnvSub 1 "example.com" =
      some ([EvaluatorCall.spfCall], Except.ok true) ∧
    EvaluatorCall.dmarcCall ∉ [EvaluatorCall.spfCall] :=
  ⟨rfl, rfl, by decide⟩

/-- C1 amended: the orchestrator evaluates
`is_spf_record_strong(domain) and is_dmarc_record_strong(domain)` with
Python's short-circuiting `and`, so the DMARC evaluator is invoked iff the
SPF evaluator returned `true`. -/
theorem orchestrator_invokes_dmarc_iff_spf_strong
    (spfEnv : String → Option SpfRecord) (dmarcEnv : String → Option DmarcRecord)
    (fuel : Nat) (domain : String) (s : Bool)
    (tr : List EvaluatorCall × Except String Bool)
    (hspf : is_spf_record_strong spfEnv fuel domain = some s)
    (htr : evaluate_trace spfEnv dmarcEnv fuel domain = some tr) :
    EvaluatorCall.dmarcCall ∈ tr.1 ↔ s = true := by
  rw [evaluate_trace, hspf] at htr
  cases s with
  | false =>
    simp only [Bool.false_eq_true, if_false, Option.some_inj] at htr
    subst htr
    simp
  | true =>
    cases hd : is_dmarc_record_strong dmarcEnv domain with
    | ok dm =>
      rw [hd] at htr
      simp only [if_true, Option.some_inj] at htr
      subst htr
      simp
    | error e =>
      rw [hd] at htr
      simp only [if_true, Option.some_inj] at htr
      subst htr
      simp

/-- Witness for the amended C1: when SPF is strong the trace contains the
DMARC call. -/
theorem orchestrator_invokes_dmarc_iff_spf_strong_witness :
    (EvaluatorCall.dmarcCall ∈
      ([EvaluatorCall.spfCall, EvaluatorCall.dmarcCall] :
        List EvaluatorCall)) ↔ true = true :=
  orchestrator_invokes_dmarc_iff_spf_strong spfEnvRedirect dmarcEnvSub 1 "b"
    true ([EvaluatorCall.spfCall, EvaluatorCall.dmarcCall],
      Except.error "AttributeError") rfl rfl
